import Mathlib

/-!
# Verification of the WWIII-APIC registration core

Shallow embedding of the player-account registration core of the
`WWIII-APIC` repository:

* `app/domain/player.py` — `Email`, `Username`, `Country`, `Player`;
* `app/use_cases/register_player.py` — `RegisterPlayerUseCase.execute`
  with its bcrypt truncation fallback;
* `app/services/auth.py` — `AuthService` (JWT issuance / verification).

Python strings become `String`, `dict[str, int]` becomes an association
list, `uuid.uuid4()` and `bcrypt.gensalt()` become explicit parameters
(the generated value is passed in), exceptions become `Except`, and the
repository port becomes a record of functions.  The external JWT library
(`jose`) and the hashing primitives (`passlib` / `bcrypt`) are modelled
as abstract parameters or as a small token model reflecting their
documented contract; everything else is translated directly from the
Python source.
-/

/-! ## Python regular-expression semantics

Both value objects validate with `re.match(r"^...$", value)`.  In Python,
`$` matches at the end of the string **or just before a newline at the end
of the string** (`re` module documentation).  Since no character class in
either pattern contains `'\n'`, a full match exists iff the core pattern
matches the whole string, or the string ends in `'\n'` and the core
pattern matches everything before that final newline. -/

/-- One character of `[a-zA-Z0-9_-]` (the Python classes are ASCII-only,
as are Lean's `Char.isAlpha` / `Char.isDigit`). -/
def isUsernameChar (c : Char) : Bool :=
  c.isAlpha || c.isDigit || c == '_' || c == '-'

/-- One character of the local-part class `[a-zA-Z0-9._%+-]`. -/
def isLocalChar (c : Char) : Bool :=
  c.isAlpha || c.isDigit || c == '.' || c == '_' || c == '%' || c == '+' || c == '-'

/-- One character of the domain class `[a-zA-Z0-9.-]`. -/
def isDomChar (c : Char) : Bool :=
  c.isAlpha || c.isDigit || c == '.' || c == '-'

/-- Core of `^[a-zA-Z0-9_-]+$` between the anchors. -/
def usernameCore (l : List Char) : Bool :=
  !l.isEmpty && l.all isUsernameChar

/-- Core of the domain tail `[a-zA-Z0-9.-]+\.[a-zA-Z]{2,}`: the maximal
alphabetic suffix is the TLD (a literal `.` must precede it, so greedy
backtracking can end nowhere else), it has length ≥ 2, and a nonempty
domain stem over `[a-zA-Z0-9.-]` precedes the dot. -/
def domCore (d : List Char) : Bool :=
  let r := d.reverse
  let tld := r.takeWhile (fun c => c.isAlpha)
  decide (2 ≤ tld.length) &&
    (match r.drop tld.length with
     | '.' :: stem => !stem.isEmpty && stem.all isDomChar
     | _ => false)

/-- Core of `^[a-zA-Z0-9._%+-]+@[a-zA-Z0-9.-]+\.[a-zA-Z]{2,}$` between the
anchors.  Neither class contains `'@'`, so the local part is exactly the
segment before the first `'@'`. -/
def emailCore (l : List Char) : Bool :=
  let loc := l.takeWhile (fun c => c ≠ '@')
  match l.drop loc.length with
  | '@' :: dom => !loc.isEmpty && loc.all isLocalChar && domCore dom
  | _ => false

/-- Python `re.match(r"^core$", s)`: `$` matches at the end of the string
or just before a trailing newline. -/
def pyMatchToEnd (core : List Char → Bool) (s : String) : Bool :=
  core s.data || (s.data.getLast? == some '\n' && core s.data.dropLast)

/-! ## Value objects (`app/domain/player.py`) -/

/-- `Email` value object: the wrapped `value` field. -/
structure Email where
  value : String
deriving DecidableEq, Repr

/-- `Email.__init__` (`app/domain/player.py:12-30`): empty check, then the
regex check, else the value is stored.  A raised `ValueError` becomes
`Except.error` carrying the message. -/
def mkEmail (value : String) : Except String Email :=
  if value = "" then
    Except.error "Email cannot be empty"
  else if pyMatchToEnd emailCore value then
    Except.ok ⟨value⟩
  else
    Except.error "Invalid email format"

/-- `Username` value object: the wrapped `value` field. -/
structure Username where
  value : String
deriving DecidableEq, Repr

/-- `Username.__init__` (`app/domain/player.py:50-68`): length bound check
first (Python `len` counts code points, as does `String.length`), then the
charset regex, else the value is stored. -/
def mkUsername (value : String) : Except String Username :=
  if ¬ (3 ≤ value.length ∧ value.length ≤ 30) then
    Except.error "Username must be between 3 and 30 characters"
  else if pyMatchToEnd usernameCore value then
    Except.ok ⟨value⟩
  else
    Except.error "Username can only contain letters, numbers, underscores, and hyphens"

/-- `Country` enum (`app/domain/player.py:85-91`). -/
inductive Country where
  | USA
  | RUSSIA
  | CHINA
  | EUROPE
deriving DecidableEq, Repr

/-! ## Player entity (`app/domain/player.py:94-123`) -/

/-- `Player` domain entity.  `uuid.UUID` becomes `Nat`; the resources
`dict[str, int]` becomes an association list. -/
structure Player where
  id : Nat
  username : Username
  email : Email
  password_hash : String
  country : Country
  initial_resources : List (String × Int)
deriving DecidableEq, Repr

/-- `Player.__init__`: `self.id = id or uuid.uuid4()` (a `UUID` is never
falsy, so `none` means generate) and `self.initial_resources =
initial_resources or {}` (both `None` and `{}` are falsy and yield `{}`;
`none.getD []` and `(some []).getD []` both yield `[]`).  The value drawn
from `uuid.uuid4()` is the explicit `freshUuid` parameter. -/
def Player.make (username : Username) (email : Email) (password_hash : String)
    (country : Country) (initial_resources : Option (List (String × Int)))
    (id : Option Nat) (freshUuid : Nat) : Player :=
  ⟨id.getD freshUuid, username, email, password_hash, country,
    initial_resources.getD []⟩

/-! ## Hashing (`app/use_cases/register_player.py:68-85`)

`passlib`'s `CryptContext.hash` and `bcrypt.hashpw` are external
primitives: they appear as abstract function parameters in `HashEnv`.
A raised Python exception becomes `Except.error` carrying a `PyErr`;
`except ValueError as e` catches exactly the `valueError` constructor. -/

/-- A Python exception relevant to the hashing step: a `ValueError` with
its message, or any other exception. -/
inductive PyErr where
  | valueError (msg : String)
  | otherErr (msg : String)
deriving DecidableEq, Repr

/-- `lo.isPrefixOfL l`: does `l` start with `lo`?  (List form of string
prefix test, used to embed Python's `in` on strings.) -/
def hasPrefixL : List Char → List Char → Bool
  | [], _ => true
  | _ :: _, [] => false
  | a :: as, b :: bs => a == b && hasPrefixL as bs

/-- Python `needle in hay` for strings: `needle` occurs as a contiguous
subsequence of `hay`. -/
def hasSubL (needle : List Char) : List Char → Bool
  | [] => needle.isEmpty
  | c :: rest => hasPrefixL needle (c :: rest) || hasSubL needle rest

/-- The message fragment tested by
`"password cannot be longer than 72 bytes" in str(e)`. -/
def lenErrNeedle : String := "password cannot be longer than 72 bytes"

/-- Is `e` the known input-length `ValueError` (the only caught-and-
recovered case)? -/
def isLenValueErr : PyErr → Bool
  | PyErr.valueError msg => hasSubL lenErrNeedle.data msg.data
  | PyErr.otherErr _ => false

/-- UTF-8 encoding of one scalar value (Python `str.encode("utf-8")`,
byte by byte). -/
def utf8Bytes (c : Char) : List Nat :=
  let n := c.toNat
  if n < 0x80 then [n]
  else if n < 0x800 then
    [0xC0 ||| (n >>> 6), 0x80 ||| (n &&& 0x3F)]
  else if n < 0x10000 then
    [0xE0 ||| (n >>> 12), 0x80 ||| ((n >>> 6) &&& 0x3F), 0x80 ||| (n &&& 0x3F)]
  else
    [0xF0 ||| (n >>> 18), 0x80 ||| ((n >>> 12) &&& 0x3F),
     0x80 ||| ((n >>> 6) &&& 0x3F), 0x80 ||| (n &&& 0x3F)]

/-- `password.encode("utf-8")` as a list of byte values. -/
def strUtf8 (s : String) : List Nat :=
  (s.data.map utf8Bytes).flatten

/-- Lines 79-82 of `register_player.py`: encode the password and truncate
to 72 bytes when longer (`password_bytes[:72]`). -/
def truncatedPwBytes (password : String) : List Nat :=
  let password_bytes := strUtf8 password
  if password_bytes.length > 72 then password_bytes.take 72 else password_bytes

/-- The external hashing primitives used by `execute`, as abstract
parameters: `pwdHash` is `self._pwd_context.hash` (which may raise),
`bcryptHashpw` is `bcrypt.hashpw`, and `gensalt` is the salt value that
`bcrypt.gensalt()` returns in this call. -/
structure HashEnv where
  pwdHash : String → Except PyErr String
  bcryptHashpw : List Nat → String → String
  gensalt : String

/-- Lines 71-85 of `register_player.py`: try `pwd_context.hash`; on a
`ValueError` whose message contains the length fragment, fall back to
`bcrypt.hashpw` on the truncated bytes; re-raise any other `ValueError`;
any non-`ValueError` exception propagates past the handler. -/
def computedHash (env : HashEnv) (password : String) : Except PyErr String :=
  match env.pwdHash password with
  | Except.ok h => Except.ok h
  | Except.error (PyErr.valueError msg) =>
    if hasSubL lenErrNeedle.data msg.data then
      Except.ok (env.bcryptHashpw (truncatedPwBytes password) env.gensalt)
    else
      Except.error (PyErr.valueError msg)
  | Except.error (PyErr.otherErr msg) => Except.error (PyErr.otherErr msg)

/-! ## Registration use case (`app/use_cases/register_player.py:34-97`) -/

/-- The repository port (`app/use_cases/ports.py`), as a record of
functions; `Player | None` becomes `Option Player`. -/
structure PlayerRepo where
  find_by_username : String → Option Player
  find_by_email : String → Option Player
  create : Player → Player

/-- An observable side effect of one `execute` call, in order. -/
inductive RepoEvent where
  | findByUsername (username : String)
  | findByEmail (email : String)
  | hashPassword
  | create (player : Player)
deriving DecidableEq, Repr

/-- The exceptions `execute` can raise: `DuplicatePlayerError`,
a `ValueError` from a value-object constructor, or a propagated hashing
exception. -/
inductive RegError where
  | duplicate (msg : String)
  | validation (msg : String)
  | hashFailure (e : PyErr)
deriving DecidableEq, Repr

/-- `RegisterPlayerUseCase.execute`: duplicate-username check, duplicate-
email check, password hashing (with the fallback of `computedHash`),
value-object construction, entity construction, `repository.create`.
Returns the result together with the ordered trace of side effects
(`hashPassword` marks the entry into the hashing step). -/
def execute (repo : PlayerRepo) (env : HashEnv) (freshId : Nat)
    (username email password : String) (country : Country)
    (initial_resources : Option (List (String × Int))) :
    Except RegError Player × List RepoEvent :=
  match repo.find_by_username username with
  | some _ =>
    (Except.error (RegError.duplicate "Username already exists"),
     [RepoEvent.findByUsername username])
  | none =>
    match repo.find_by_email email with
    | some _ =>
      (Except.error (RegError.duplicate "Email already exists"),
       [RepoEvent.findByUsername username, RepoEvent.findByEmail email])
    | none =>
      let ev := [RepoEvent.findByUsername username, RepoEvent.findByEmail email,
                 RepoEvent.hashPassword]
      match computedHash env password with
      | Except.error e => (Except.error (RegError.hashFailure e), ev)
      | Except.ok password_hash =>
        match mkUsername username with
        | Except.error m => (Except.error (RegError.validation m), ev)
        | Except.ok uo =>
          match mkEmail email with
          | Except.error m => (Except.error (RegError.validation m), ev)
          | Except.ok eo =>
            let player := Player.make uo eo password_hash country
              (some (initial_resources.getD [])) none freshId
            (Except.ok (repo.create player), ev ++ [RepoEvent.create player])

/-- Is an event one of the two duplicate-check reads? -/
def isReadEv : RepoEvent → Bool
  | RepoEvent.findByUsername _ => true
  | RepoEvent.findByEmail _ => true
  | _ => false

/-- Is an event the entry into the hash computation? -/
def isHashEv : RepoEvent → Bool
  | RepoEvent.hashPassword => true
  | _ => false

/-- Is an event the `create` write? -/
def isCreateEv : RepoEvent → Bool
  | RepoEvent.create _ => true
  | _ => false

/-- Did `execute` return normally? -/
def isOkResult : Except RegError Player → Bool
  | Except.ok _ => true
  | Except.error _ => false

/-! ## Token issuance service (`app/services/auth.py`)

The `jose` JWT library is external; `jwtEncode` / `jwtDecode` model its
documented contract: `encode` signs a payload with a key and algorithm,
`decode` accepts exactly the tokens signed with the presented key and one
of the allowed algorithms, raising `ExpiredSignatureError` when the `exp`
claim has passed and `JWTError` otherwise.  Wall-clock time is an
explicit `now` parameter (seconds since the epoch). -/

/-- A JSON claim value, as far as the service inspects one: a string or a
number.  (`isinstance(sub_value, str)` holds exactly for `str`.) -/
inductive JValue where
  | str (s : String)
  | num (n : Int)
deriving DecidableEq, Repr

/-- The decoded token payload: the optional `sub` claim and the `exp`
claim (seconds since the epoch). -/
structure Payload where
  sub : Option JValue
  exp : Int
deriving DecidableEq, Repr

/-- A signed token: its payload together with the key and algorithm it
was signed with. -/
structure Token where
  payload : Payload
  key : String
  alg : String
deriving DecidableEq, Repr

/-- `jose.jwt.encode(claims, key, algorithm)`. -/
def jwtEncode (payload : Payload) (key : String) (alg : String) : Token :=
  ⟨payload, key, alg⟩

/-- A token-verification failure: `ExpiredSignatureError` or a general
`JWTError` with its message. -/
inductive JwtErr where
  | expiredSignature
  | jwtError (msg : String)
deriving DecidableEq, Repr

/-- `jose.jwt.decode(token, key, algorithms)` at time `now`: signature and
algorithm must check out, then the `exp` claim must still be in the
future. -/
def jwtDecode (tok : Token) (key : String) (algs : List String) (now : Int) :
    Except JwtErr Payload :=
  if tok.key = key ∧ tok.alg ∈ algs then
    if tok.payload.exp ≤ now then Except.error JwtErr.expiredSignature
    else Except.ok tok.payload
  else Except.error (JwtErr.jwtError "Signature verification failed.")

/-- The three settings fields `AuthService` reads
(`app/core/config.py:49-55`); `jwt_secret_key` is `str | None` with
default `None`. -/
structure SettingsM where
  jwt_secret_key : Option String
  jwt_algorithm : String
  jwt_access_token_expire_minutes : Int
deriving DecidableEq, Repr

/-- The constructed service: the settings plus the validated
`_jwt_secret_key`. -/
structure AuthService where
  settings : SettingsM
  jwt_secret_key : String
deriving DecidableEq, Repr

/-- `AuthService.__init__` (`app/services/auth.py:14-25`): raise
`ValueError("JWT_SECRET_KEY must be set")` when `not
settings.jwt_secret_key` — i.e. when the field is `None` or the empty
string — otherwise store the key.  No other operation checks the
secret. -/
def AuthService.make (settings : SettingsM) : Except String AuthService :=
  match settings.jwt_secret_key with
  | none => Except.error "JWT_SECRET_KEY must be set"
  | some k =>
    if k = "" then Except.error "JWT_SECRET_KEY must be set"
    else Except.ok ⟨settings, k⟩

/-- `AuthService.create_access_token` (`app/services/auth.py:27-46`):
`exp = now + timedelta(minutes=ttl)` and `sub = player_id`, signed with
the stored key and configured algorithm.  It is a total function: no
secret check happens per call. -/
def AuthService.create_access_token (svc : AuthService) (player_id : String)
    (now : Int) : Token :=
  let expire := now + svc.settings.jwt_access_token_expire_minutes * 60
  jwtEncode ⟨some (JValue.str player_id), expire⟩ svc.jwt_secret_key
    svc.settings.jwt_algorithm

/-- `AuthService.verify_token` (`app/services/auth.py:48-67`): decode with
the stored key and the configured algorithm as the only allowed one. -/
def AuthService.verify_token (svc : AuthService) (token : Token) (now : Int) :
    Except JwtErr Payload :=
  jwtDecode token svc.jwt_secret_key [svc.settings.jwt_algorithm] now

/-- `AuthService.get_player_id_from_token` (`app/services/auth.py:69-87`):
after `verify_token`, `payload.get("sub")` is rejected by
`if not sub_value or not isinstance(sub_value, str)` — the claim being
absent (`None`), any non-string value, and the falsy empty string all
raise `JWTError("Token does not contain player ID")`; a nonempty string
is returned. -/
def AuthService.get_player_id_from_token (svc : AuthService) (token : Token)
    (now : Int) : Except JwtErr String :=
  match svc.verify_token token now with
  | Except.error e => Except.error e
  | Except.ok payload =>
    match payload.sub with
    | some (JValue.str s) =>
      if s = "" then Except.error (JwtErr.jwtError "Token does not contain player ID")
      else Except.ok s
    | _ => Except.error (JwtErr.jwtError "Token does not contain player ID")

/-! ## Concrete fixtures for witnesses and counterexamples -/

/-- A player already in storage, used to populate test repositories. -/
def storedPlayer : Player :=
  ⟨0, ⟨"taken_user"⟩, ⟨"taken@example.com"⟩, "storedhash", Country.RUSSIA, []⟩

/-- Repository in which every username lookup hits `storedPlayer`. -/
def repoUsernameTaken : PlayerRepo :=
  ⟨fun _ => some storedPlayer, fun _ => some storedPlayer, fun p => p⟩

/-- Repository in which only email lookups hit `storedPlayer`. -/
def repoEmailTaken : PlayerRepo :=
  ⟨fun _ => none, fun _ => some storedPlayer, fun p => p⟩

/-- Empty repository: both lookups miss and `create` echoes its
argument. -/
def repoEmpty : PlayerRepo :=
  ⟨fun _ => none, fun _ => none, fun p => p⟩

/-- Hashing environment whose `pwd_context.hash` succeeds with a fixed
digest. -/
def envOk : HashEnv :=
  ⟨fun _ => Except.ok "PWDHASH", fun _ _ => "BCRYPTHASH", "SALT"⟩

/-- Hashing environment whose `pwd_context.hash` raises the known
input-length `ValueError`. -/
def envLenErr : HashEnv :=
  ⟨fun _ => Except.error (PyErr.valueError "password cannot be longer than 72 bytes"),
   fun _ _ => "BCRYPTHASH", "SALT"⟩

/-- Hashing environment whose `pwd_context.hash` raises an unrelated
`ValueError`. -/
def envOtherValueErr : HashEnv :=
  ⟨fun _ => Except.error (PyErr.valueError "malformed hash configuration"),
   fun _ _ => "BCRYPTHASH", "SALT"⟩

/-- A 100-character (100-byte) password, as in the fallback test. -/
def longPassword : String :=
  "aaaaaaaaaaaaaaaaaaaaaaaaaaaaaaaaaaaaaaaaaaaaaaaaaaaaaaaaaaaaaaaaaaaaaaaaaaaaaaaaaaaaaaaaaaaaaaaaaa"

/-- A password agreeing with `longPassword` on the first 72 bytes and
differing beyond them. -/
def longPasswordB : String :=
  "aaaaaaaaaaaaaaaaaaaaaaaaaaaaaaaaaaaaaaaaaaaaaaaaaaaaaaaaaaaaaaaaaaaaaaaabbbbbbbb"

/-- Settings with a configured secret. -/
def settingsOk : SettingsM := ⟨some "secret", "HS256", 30⟩

/-- The service `AuthService.make settingsOk` yields. -/
def svcOk : AuthService := ⟨settingsOk, "secret"⟩

/-- A token whose `sub` claim is the empty string, signed correctly. -/
def tokenEmptySub : Token := ⟨⟨some (JValue.str ""), 9999⟩, "secret", "HS256"⟩

/-- A token whose `sub` claim is a nonempty string, signed correctly. -/
def tokenGoodSub : Token := ⟨⟨some (JValue.str "pid-1"), 9999⟩, "secret", "HS256"⟩

/-! ## Helper lemmas -/

/-- A successfully constructed `Username` wraps the raw string
unchanged. -/
theorem mkUsername_ok_value {s : String} {u : Username}
    (h : mkUsername s = Except.ok u) : u.value = s := by
  unfold mkUsername at h
  split at h
  · exact absurd h (by simp)
  · split at h
    · cases h; rfl
    · exact absurd h (by simp)

/-- A successfully constructed `Email` wraps the raw string unchanged. -/
theorem mkEmail_ok_value {s : String} {e : Email}
    (h : mkEmail s = Except.ok e) : e.value = s := by
  unfold mkEmail at h
  split at h
  · exact absurd h (by simp)
  · split at h
    · cases h; rfl
    · exact absurd h (by simp)

/-- The fallback's byte preparation always yields exactly the first 72
bytes of the UTF-8 encoding (when the encoding is at most 72 bytes,
`take` returns it whole). -/
theorem truncatedPwBytes_eq_take (p : String) :
    truncatedPwBytes p = (strUtf8 p).take 72 := by
  unfold truncatedPwBytes
  by_cases h : (strUtf8 p).length > 72
  · simp [h]
  · simp [h]
    omega

/-! ## C3 / C4 — value-object validation at the failing inputs -/

/-- C3: `"abc\n"` has length 4 (within 3–30) and contains `'\n'`, which is
outside `[A-Za-z0-9_-]`, yet `Username` construction succeeds and stores
the string unchanged — `re.match` with `$` accepts a trailing newline,
contradicting the documented charset rule. -/
theorem username_accepts_trailing_newline :
    mkUsername "abc\n" = Except.ok ⟨"abc\n"⟩ ∧
    3 ≤ ("abc\n" : String).length ∧ ("abc\n" : String).length ≤ 30 ∧
    '\n' ∈ ("abc\n" : String).data ∧ isUsernameChar '\n' = false :=
  ⟨rfl, by decide, by decide, by decide, by decide⟩

/-- C4: `"a@b.co\n"` does not fit `local@domain.tld` (it ends in a
newline, outside every character class of the pattern), yet `Email`
construction succeeds and stores the string unchanged — `re.match` with
`$` accepts a trailing newline, contradicting the documented format. -/
theorem email_accepts_trailing_newline :
    mkEmail "a@b.co\n" = Except.ok ⟨"a@b.co\n"⟩ ∧
    '\n' ∈ ("a@b.co\n" : String).data ∧
    isLocalChar '\n' = false ∧ isDomChar '\n' = false ∧ ('\n').isAlpha = false :=
  ⟨rfl, by decide, by decide, by decide, by decide⟩

/-! ## C1 — first-conflict-wins duplicate checks -/

/-- C1: when the raw-username lookup hits, `execute` fails with
`DuplicatePlayerError("Username already exists")` and the trace is just
that one read (no email lookup, no hash, no `create`); when the username
lookup misses and the raw-email lookup hits, it fails with
`DuplicatePlayerError("Email already exists")` and the trace is exactly
the two reads (no `create`). -/
theorem register_duplicate_first_conflict_wins (repo : PlayerRepo) (env : HashEnv)
    (freshId : Nat) (username email password : String) (country : Country)
    (res : Option (List (String × Int))) :
    (∀ p, repo.find_by_username username = some p →
      execute repo env freshId username email password country res =
        (Except.error (RegError.duplicate "Username already exists"),
         [RepoEvent.findByUsername username])) ∧
    (repo.find_by_username username = none →
      ∀ p, repo.find_by_email email = some p →
        execute repo env freshId username email password country res =
          (Except.error (RegError.duplicate "Email already exists"),
           [RepoEvent.findByUsername username, RepoEvent.findByEmail email])) := by
  constructor
  · intro p hp
    simp [execute, hp]
  · intro hu p hp
    simp [execute, hu, hp]

/-- C1 witness: concrete repositories exercising both duplicate paths. -/
theorem register_duplicate_first_conflict_wins_witness :
    (repoUsernameTaken.find_by_username "user_one" = some storedPlayer ∧
     execute repoUsernameTaken envOk 1 "user_one" "u1@example.com" "pw123"
         Country.USA none =
       (Except.error (RegError.duplicate "Username already exists"),
        [RepoEvent.findByUsername "user_one"])) ∧
    (repoEmailTaken.find_by_username "user_two" = none ∧
     repoEmailTaken.find_by_email "u2@example.com" = some storedPlayer ∧
     execute repoEmailTaken envOk 1 "user_two" "u2@example.com" "pw123"
         Country.USA none =
       (Except.error (RegError.duplicate "Email already exists"),
        [RepoEvent.findByUsername "user_two", RepoEvent.findByEmail "u2@example.com"])) :=
  ⟨⟨rfl, (register_duplicate_first_conflict_wins repoUsernameTaken envOk 1 "user_one"
      "u1@example.com" "pw123" Country.USA none).1 storedPlayer rfl⟩,
   ⟨rfl, rfl, (register_duplicate_first_conflict_wins repoEmailTaken envOk 1 "user_two"
      "u2@example.com" "pw123" Country.USA none).2 rfl storedPlayer rfl⟩⟩

/-! ## C2 — shape of a successful registration -/

/-- C2: a successful `execute` persisted, via `repository.create`, a
player carrying the generated `freshId`, a `Username` wrapping the raw
username, an `Email` wrapping the raw email, the computed credential
hash, the supplied country, and the supplied resources (empty when
omitted); the returned player is exactly what `create` returned. -/
theorem register_success_shape (repo : PlayerRepo) (env : HashEnv) (freshId : Nat)
    (username email password : String) (country : Country)
    (res : Option (List (String × Int))) (pl : Player) (tr : List RepoEvent)
    (h : execute repo env freshId username email password country res =
      (Except.ok pl, tr)) :
    ∃ uo eo hsh,
      mkUsername username = Except.ok uo ∧ uo.value = username ∧
      mkEmail email = Except.ok eo ∧ eo.value = email ∧
      computedHash env password = Except.ok hsh ∧
      pl = repo.create ⟨freshId, uo, eo, hsh, country, res.getD []⟩ ∧
      RepoEvent.create ⟨freshId, uo, eo, hsh, country, res.getD []⟩ ∈ tr := by
  unfold execute at h
  cases h1 : repo.find_by_username username with
  | some p => rw [h1] at h; exact absurd h (by simp)
  | none =>
  rw [h1] at h
  cases h2 : repo.find_by_email email with
  | some p => rw [h2] at h; exact absurd h (by simp)
  | none =>
  rw [h2] at h
  cases h3 : computedHash env password with
  | error e => rw [h3] at h; exact absurd h (by simp)
  | ok hsh =>
  rw [h3] at h
  cases h4 : mkUsername username with
  | error m => rw [h4] at h; exact absurd h (by simp)
  | ok uo =>
  rw [h4] at h
  cases h5 : mkEmail email with
  | error m => rw [h5] at h; exact absurd h (by simp)
  | ok eo =>
  rw [h5] at h
  simp only [Prod.mk.injEq, Except.ok.injEq] at h
  obtain ⟨hpl, htr⟩ := h
  refine ⟨uo, eo, hsh, rfl, mkUsername_ok_value h4, rfl, mkEmail_ok_value h5, rfl, ?_, ?_⟩
  · rw [← hpl]; rfl
  · rw [← htr]; simp [Player.make]

/-- C2 witness: a fully concrete successful registration. -/
theorem register_success_shape_witness :
    execute repoEmpty envOk 7 "player123" "player@example.com" "password123"
        Country.USA (some [("money", (1000 : Int))]) =
      (Except.ok ⟨7, ⟨"player123"⟩, ⟨"player@example.com"⟩, "PWDHASH", Country.USA,
         [("money", (1000 : Int))]⟩,
       [RepoEvent.findByUsername "player123", RepoEvent.findByEmail "player@example.com",
        RepoEvent.hashPassword,
        RepoEvent.create ⟨7, ⟨"player123"⟩, ⟨"player@example.com"⟩, "PWDHASH",
          Country.USA, [("money", (1000 : Int))]⟩]) ∧
    (∃ uo eo hsh,
      mkUsername "player123" = Except.ok uo ∧ uo.value = "player123" ∧
      mkEmail "player@example.com" = Except.ok eo ∧ eo.value = "player@example.com" ∧
      computedHash envOk "password123" = Except.ok hsh ∧
      (⟨7, ⟨"player123"⟩, ⟨"player@example.com"⟩, "PWDHASH", Country.USA,
         [("money", (1000 : Int))]⟩ : Player) =
        repoEmpty.create ⟨7, uo, eo, hsh, Country.USA,
          (some [("money", (1000 : Int))]).getD []⟩ ∧
      RepoEvent.create ⟨7, uo, eo, hsh, Country.USA,
          (some [("money", (1000 : Int))]).getD []⟩ ∈
        [RepoEvent.findByUsername "player123", RepoEvent.findByEmail "player@example.com",
         RepoEvent.hashPassword,
         RepoEvent.create ⟨7, ⟨"player123"⟩, ⟨"player@example.com"⟩, "PWDHASH",
           Country.USA, [("money", (1000 : Int))]⟩]) :=
  ⟨rfl, register_success_shape repoEmpty envOk 7 "player123" "player@example.com"
    "password123" Country.USA (some [("money", (1000 : Int))]) _ _ rfl⟩

/-! ## C5 — bcrypt truncation fallback -/

/-- C5: when `pwd_context.hash` raises the known input-length
`ValueError`, registration still succeeds — the stored hash is
`bcrypt.hashpw` applied to the (at most 72) truncated password bytes and
the generated salt, and no error is raised; any hashing failure that is
not the known input-length `ValueError` propagates out of the hash step
unchanged. -/
theorem register_bcrypt_fallback (repo : PlayerRepo) (env : HashEnv) (freshId : Nat)
    (username email password : String) (country : Country)
    (res : Option (List (String × Int))) :
    (∀ msg uo eo, env.pwdHash password = Except.error (PyErr.valueError msg) →
      hasSubL lenErrNeedle.data msg.data = true →
      repo.find_by_username username = none →
      repo.find_by_email email = none →
      mkUsername username = Except.ok uo →
      mkEmail email = Except.ok eo →
      execute repo env freshId username email password country res =
        (Except.ok (repo.create ⟨freshId, uo, eo,
            env.bcryptHashpw (truncatedPwBytes password) env.gensalt, country,
            res.getD []⟩),
         [RepoEvent.findByUsername username, RepoEvent.findByEmail email,
          RepoEvent.hashPassword,
          RepoEvent.create ⟨freshId, uo, eo,
            env.bcryptHashpw (truncatedPwBytes password) env.gensalt, country,
            res.getD []⟩])) ∧
    (∀ err, env.pwdHash password = Except.error err → isLenValueErr err = false →
      computedHash env password = Except.error err) := by
  constructor
  · intro msg uo eo hmsg hsub hu he hmu hme
    simp [execute, computedHash, hmsg, hsub, hu, he, hmu, hme, Player.make]
  · intro err herr hlen
    cases err with
    | valueError m =>
      simp only [isLenValueErr] at hlen
      simp [computedHash, herr, hlen]
    | otherErr m =>
      simp [computedHash, herr]

/-- C5 witness: the 100-byte password of the repository's fallback test,
with `pwd_context.hash` raising the length `ValueError` (first part) and
an unrelated `ValueError` (second part). -/
theorem register_bcrypt_fallback_witness :
    (envLenErr.pwdHash longPassword =
       Except.error (PyErr.valueError "password cannot be longer than 72 bytes") ∧
     hasSubL lenErrNeedle.data
       ("password cannot be longer than 72 bytes" : String).data = true ∧
     execute repoEmpty envLenErr 3 "player123" "player@example.com" longPassword
         Country.USA none =
       (Except.ok (repoEmpty.create ⟨3, ⟨"player123"⟩, ⟨"player@example.com"⟩,
           envLenErr.bcryptHashpw (truncatedPwBytes longPassword) envLenErr.gensalt,
           Country.USA, (none : Option (List (String × Int))).getD []⟩),
        [RepoEvent.findByUsername "player123",
         RepoEvent.findByEmail "player@example.com", RepoEvent.hashPassword,
         RepoEvent.create ⟨3, ⟨"player123"⟩, ⟨"player@example.com"⟩,
           envLenErr.bcryptHashpw (truncatedPwBytes longPassword) envLenErr.gensalt,
           Country.USA, (none : Option (List (String × Int))).getD []⟩])) ∧
    (envOtherValueErr.pwdHash longPassword =
       Except.error (PyErr.valueError "malformed hash configuration") ∧
     isLenValueErr (PyErr.valueError "malformed hash configuration") = false ∧
     computedHash envOtherValueErr longPassword =
       Except.error (PyErr.valueError "malformed hash configuration")) :=
  ⟨⟨rfl, by decide,
    (register_bcrypt_fallback repoEmpty envLenErr 3 "player123" "player@example.com"
      longPassword Country.USA none).1 "password cannot be longer than 72 bytes"
      ⟨"player123"⟩ ⟨"player@example.com"⟩ rfl (by decide) rfl rfl rfl rfl⟩,
   ⟨rfl, by decide,
    (register_bcrypt_fallback repoEmpty envOtherValueErr 3 "player123"
      "player@example.com" longPassword Country.USA none).2
      (PyErr.valueError "malformed hash configuration") rfl (by decide)⟩⟩

/-! ## C6 — side-effect discipline of `execute` -/

/-- C6 counterexample: with an empty repository and a working hasher, the
too-short fresh username `"ab"` makes the call fail with a
`ValidationError`, yet the hash computation was entered — the hash step
precedes value-object construction, so "exactly one hash computation
occurs only when the call succeeds" is false. -/
theorem register_hashes_despite_validation_failure :
    isOkResult (execute repoEmpty envOk 5 "ab" "ab@example.com" "pw123"
        Country.USA none).1 = false ∧
    (execute repoEmpty envOk 5 "ab" "ab@example.com" "pw123" Country.USA none).1 =
      Except.error (RegError.validation
        "Username must be between 3 and 30 characters") ∧
    RepoEvent.hashPassword ∈
      (execute repoEmpty envOk 5 "ab" "ab@example.com" "pw123" Country.USA none).2 :=
  ⟨rfl, rfl, by decide⟩

/-- C6 amended: every `execute` call performs at most two duplicate-check
reads; it enters the hash computation exactly once when both duplicate
checks miss and never otherwise (even if the call later fails
validation); and it performs the `create` write exactly once when the
call succeeds and never when it fails. -/
theorem register_side_effect_discipline (repo : PlayerRepo) (env : HashEnv)
    (freshId : Nat) (username email password : String) (country : Country)
    (res : Option (List (String × Int))) :
    ((execute repo env freshId username email password country res).2.countP
        isReadEv ≤ 2) ∧
    ((execute repo env freshId username email password country res).2.countP
        isHashEv =
      if repo.find_by_username username = none ∧ repo.find_by_email email = none
      then 1 else 0) ∧
    ((execute repo env freshId username email password country res).2.countP
        isCreateEv =
      if isOkResult
          (execute repo env freshId username email password country res).1 = true
      then 1 else 0) := by
  unfold execute
  cases h1 : repo.find_by_username username with
  | some p =>
    simp [h1, List.countP_cons, isReadEv, isHashEv, isCreateEv, isOkResult]
  | none =>
  cases h2 : repo.find_by_email email with
  | some p =>
    simp [h1, h2, List.countP_cons, isReadEv, isHashEv, isCreateEv, isOkResult]
  | none =>
  cases h3 : computedHash env password with
  | error e =>
    simp [h1, h2, h3, List.countP_cons, isReadEv, isHashEv, isCreateEv, isOkResult]
  | ok hsh =>
  cases h4 : mkUsername username with
  | error m =>
    simp [h1, h2, h3, h4, List.countP_cons, isReadEv, isHashEv, isCreateEv, isOkResult]
  | ok uo =>
  cases h5 : mkEmail email with
  | error m =>
    simp [h1, h2, h3, h4, h5, List.countP_cons, isReadEv, isHashEv, isCreateEv,
      isOkResult]
  | ok eo =>
    simp [h1, h2, h3, h4, h5, List.countP_cons, List.countP_append, isReadEv,
      isHashEv, isCreateEv, isOkResult]

/-! ## C7 — issue followed by verify -/

/-- C7: for a service constructed with a positive configured TTL,
issuing a token for `pid` at time `now` and verifying it at the same
instant succeeds, and the returned claims carry subject `pid` and expiry
`now + ttl * 60` seconds — exactly the issuance time plus the configured
time-to-live in minutes. -/
theorem issue_then_verify_roundtrip (settings : SettingsM) (svc : AuthService)
    (pid : String) (now : Int)
    (hmk : AuthService.make settings = Except.ok svc)
    (hpos : 0 < settings.jwt_access_token_expire_minutes) :
    svc.verify_token (svc.create_access_token pid now) now =
      Except.ok ⟨some (JValue.str pid),
        now + settings.jwt_access_token_expire_minutes * 60⟩ := by
  obtain ⟨key?, alg, mins⟩ := settings
  cases key? with
  | none => exact absurd hmk (by simp [AuthService.make])
  | some k =>
    by_cases hk : k = ""
    · exact absurd hmk (by simp [AuthService.make, hk])
    · simp only [AuthService.make, hk, if_false] at hmk
      cases hmk
      have hm : 0 < mins := hpos
      simp [AuthService.verify_token, AuthService.create_access_token,
        jwtEncode, jwtDecode,
        (by omega : ¬ (now + mins * 60 ≤ now))]
      all_goals omega

/-- C7 witness: a concrete service with a 30-minute TTL, issued and
verified at time 1000. -/
theorem issue_then_verify_roundtrip_witness :
    AuthService.make settingsOk = Except.ok svcOk ∧
    (0 : Int) < settingsOk.jwt_access_token_expire_minutes ∧
    svcOk.verify_token (svcOk.create_access_token "pid-1" 1000) 1000 =
      Except.ok ⟨some (JValue.str "pid-1"),
        1000 + settingsOk.jwt_access_token_expire_minutes * 60⟩ :=
  ⟨rfl, by decide,
   issue_then_verify_roundtrip settingsOk svcOk "pid-1" 1000 rfl (by decide)⟩

/-! ## C8 — construction-time secret check -/

/-- C8: constructing the service succeeds exactly when the configured
secret is present and nonempty (`not settings.jwt_secret_key` in Python);
in the success case the service is the record storing the validated key —
`create_access_token` and `verify_token` are total functions of that
record and perform no further secret check. -/
theorem service_requires_secret_at_construction (settings : SettingsM) :
    ((∃ svc, AuthService.make settings = Except.ok svc) ↔
      ∃ k, settings.jwt_secret_key = some k ∧ k ≠ "") ∧
    (∀ k, settings.jwt_secret_key = some k → k ≠ "" →
      AuthService.make settings = Except.ok ⟨settings, k⟩) := by
  obtain ⟨key?, alg, mins⟩ := settings
  cases key? with
  | none => simp [AuthService.make]
  | some k =>
    by_cases hk : k = "" <;> simp [AuthService.make, hk]

/-- C8 witness: construction succeeds with the secret `"secret"` and
yields the record storing it. -/
theorem service_requires_secret_at_construction_witness :
    (∃ svc, AuthService.make settingsOk = Except.ok svc) ∧
    AuthService.make settingsOk = Except.ok ⟨settingsOk, "secret"⟩ :=
  ⟨(service_requires_secret_at_construction settingsOk).1.mpr
     ⟨"secret", rfl, by decide⟩,
   (service_requires_secret_at_construction settingsOk).2 "secret" rfl (by decide)⟩

/-! ## C9 — subject extraction -/

/-- C9 counterexample: a correctly signed, unexpired token whose `sub`
claim is present and is a string — the empty string — is accepted by
`verify_token`, yet `get_player_id_from_token` fails, because Python's
`not sub_value` also rejects the falsy empty string. -/
theorem subject_rejects_present_empty_string :
    svcOk.verify_token tokenEmptySub 0 = Except.ok ⟨some (JValue.str ""), 9999⟩ ∧
    (⟨some (JValue.str ""), 9999⟩ : Payload).sub = some (JValue.str "") ∧
    svcOk.get_player_id_from_token tokenEmptySub 0 =
      Except.error (JwtErr.jwtError "Token does not contain player ID") :=
  ⟨rfl, rfl, rfl⟩

/-- C9 amended: for a token accepted by `verify_token`,
`get_player_id_from_token` returns `s` exactly when the `sub` claim is
the nonempty string `s`; it fails with
`JWTError("Token does not contain player ID")` exactly when the claim is
missing, not a string, or the empty string. -/
theorem subject_extraction (svc : AuthService) (tok : Token) (now : Int)
    (payload : Payload)
    (h : svc.verify_token tok now = Except.ok payload) :
    (∀ s, svc.get_player_id_from_token tok now = Except.ok s ↔
       payload.sub = some (JValue.str s) ∧ s ≠ "") ∧
    ((¬ ∃ s, payload.sub = some (JValue.str s) ∧ s ≠ "") →
      svc.get_player_id_from_token tok now =
        Except.error (JwtErr.jwtError "Token does not contain player ID")) := by
  have hget : svc.get_player_id_from_token tok now =
      (match payload.sub with
       | some (JValue.str s) =>
         if s = "" then
           Except.error (JwtErr.jwtError "Token does not contain player ID")
         else Except.ok s
       | _ => Except.error (JwtErr.jwtError "Token does not contain player ID")) := by
    unfold AuthService.get_player_id_from_token
    rw [h]
  rw [hget]
  cases hsub : payload.sub with
  | none => simp
  | some v =>
    cases v with
    | str s =>
      by_cases hs : s = ""
      · subst hs
        simp
      · simp only [hs, if_false]
        refine ⟨?_, ?_⟩
        · intro t
          simp only [Except.ok.injEq, Option.some.injEq, JValue.str.injEq]
          constructor
          · intro h'
            exact ⟨h', h' ▸ hs⟩
          · intro h'
            exact h'.1
        · intro hno
          exact absurd ⟨s, rfl, hs⟩ hno
    | num n => simp

/-- C9 witness: a token with the nonempty subject `"pid-1"`. -/
theorem subject_extraction_witness :
    svcOk.verify_token tokenGoodSub 0 =
      Except.ok ⟨some (JValue.str "pid-1"), 9999⟩ ∧
    (svcOk.get_player_id_from_token tokenGoodSub 0 = Except.ok "pid-1" ↔
      (⟨some (JValue.str "pid-1"), 9999⟩ : Payload).sub =
          some (JValue.str "pid-1") ∧ "pid-1" ≠ "") :=
  ⟨rfl, (subject_extraction svcOk tokenGoodSub 0 ⟨some (JValue.str "pid-1"), 9999⟩
    rfl).1 "pid-1"⟩

/-! ## C10 — the fallback hashes only the first 72 UTF-8 bytes -/

/-- C10: the bytes the fallback hashes are exactly the first 72 bytes of
the password's UTF-8 encoding, so two passwords whose encodings agree on
those bytes are hashed from identical byte strings — with the same salt
the stored credential is the same, and it depends on no byte beyond the
72nd.  The last conjunct ties this to the fallback path of the hash
computation itself. -/
theorem fallback_depends_on_first_72_bytes (p1 p2 : String) (env : HashEnv)
    (h : (strUtf8 p1).take 72 = (strUtf8 p2).take 72) :
    truncatedPwBytes p1 = (strUtf8 p1).take 72 ∧
    truncatedPwBytes p1 = truncatedPwBytes p2 ∧
    env.bcryptHashpw (truncatedPwBytes p1) env.gensalt =
      env.bcryptHashpw (truncatedPwBytes p2) env.gensalt ∧
    (∀ msg, env.pwdHash p1 = Except.error (PyErr.valueError msg) →
      hasSubL lenErrNeedle.data msg.data = true →
      computedHash env p1 =
        Except.ok (env.bcryptHashpw ((strUtf8 p1).take 72) env.gensalt)) := by
  have t1 := truncatedPwBytes_eq_take p1
  have t2 := truncatedPwBytes_eq_take p2
  have teq : truncatedPwBytes p1 = truncatedPwBytes p2 := by rw [t1, t2, h]
  refine ⟨t1, teq, by rw [teq], ?_⟩
  intro msg hmsg hsub
  simp [computedHash, hmsg, hsub, t1]

/-- C10 witness: a 100-byte password and an 81-byte password agreeing on
their first 72 bytes; the fallback prepares identical byte strings and
the hash computation succeeds on the common prefix. -/
theorem fallback_depends_on_first_72_bytes_witness :
    (strUtf8 longPassword).take 72 = (strUtf8 longPasswordB).take 72 ∧
    truncatedPwBytes longPassword = truncatedPwBytes longPasswordB ∧
    computedHash envLenErr longPassword =
      Except.ok (envLenErr.bcryptHashpw ((strUtf8 longPassword).take 72)
        envLenErr.gensalt) :=
  ⟨by decide,
   (fallback_depends_on_first_72_bytes longPassword longPasswordB envLenErr
     (by decide)).2.1,
   (fallback_depends_on_first_72_bytes longPassword longPasswordB envLenErr
     (by decide)).2.2.2 "password cannot be longer than 72 bytes" rfl (by decide)⟩
